import Mathlib

/-!
Shallow embedding of the CustomerMicroservice repository: the pydantic
models of `src/models/address.py` and `src/models/customer.py` and the
FastAPI handlers of `src/main.py`.

Modelling conventions:
* A JSON field of a request body is absent, explicitly `null`, or carries a
  value: `JField`.  Pydantic's `model_dump(exclude_unset=True)` keeps the
  `null`/value states and drops the absent one, which is what the merge in
  `update_customer` / `update_address` relies on.
* `StringConstraints(pattern=...)` is modelled by an executable matcher over
  the string; the regex class `\w` is modelled as ASCII `[A-Za-z0-9_]`
  (every string occurring in the repository is ASCII).
  `strip_whitespace=True` on `EduEmail` is modelled by `pyStrip`.
* `uuid4()` and `datetime.now(UTC)` are nondeterministic inputs of a
  handler; every call site gets its own explicit `Nat` parameter, so a
  handler that reads the clock twice (`create_customer`, `create_address`
  and `get_customer_by_id` stamp `created_at` and `updated_at` with two
  separate `datetime.now(UTC)` calls) takes two time parameters, which the
  program does not force to coincide.  A calendar date is likewise a `Nat`
  (e.g. `date(1995, 5, 20)` is encoded `19950520`).
* A pydantic `ValidationError` names the offending fields; the validators
  below return the list of offending field names, in field declaration
  order, and validation succeeds exactly when that list is empty.
-/

/-- State of one field inside a JSON request body: absent from the body,
present as `null`, or present with a value. -/
inductive JField (α : Type) where
  | missing : JField α
  | null : JField α
  | val : α → JField α
  deriving DecidableEq, Repr

/-- The value a `JField` contributes once pydantic has coerced `null` and
absence to Python `None` (used for `Optional[...]` fields). -/
def JField.toOption : JField α → Option α
  | .missing => none
  | .null => none
  | .val a => some a

/-- ASCII model of the regex class `\w`. -/
def isWordChar (c : Char) : Bool :=
  c.isAlphanum || c == '_'

/-- One character of the class `[\w.-]` used by the email pattern. -/
def isEmailChar (c : Char) : Bool :=
  isWordChar c || c == '.' || c == '-'

/-- Model of Python `str.strip()`, what pydantic's `strip_whitespace=True`
applies before the pattern check: drop leading and trailing whitespace. -/
def pyStrip (s : String) : String :=
  ⟨List.rdropWhile Char.isWhitespace (s.data.dropWhile Char.isWhitespace)⟩

/-- Full match of the `EduEmail` pattern `^[\w\.-]+@[\w\.-]+\.edu$`
(`src/models/customer.py` line 12): one `@` splitting the string into a
nonempty local part over `[\w.-]` and a domain part over `[\w.-]` that is a
nonempty prefix followed by the literal, case-sensitive suffix `.edu`.
The class `[\w.-]` excludes `@`, so the local part is exactly the maximal
`@`-free prefix and the domain part may hold no further `@`. -/
def matchEduEmail (s : String) : Bool :=
  let a := s.data.takeWhile (· != '@')
  match s.data.dropWhile (· != '@') with
  | '@' :: b =>
      !a.isEmpty && a.all isEmailChar && b.all isEmailChar &&
      (match b.reverse with
        | 'u' :: 'd' :: 'e' :: '.' :: r => !r.isEmpty
        | _ => false)
  | _ => false

/-- Full match of the `CourseIDType` pattern `^[A-Z]{2,4}\d{3,4}$`
(`src/models/customer.py` line 13).  Uppercase letters and digits are
disjoint classes, so a match decomposes uniquely as the maximal uppercase
prefix (2 to 4 letters) followed by only digits (3 or 4 of them). -/
def matchCourseID (s : String) : Bool :=
  let cs := s.toList
  let letters := cs.takeWhile (·.isUpper)
  let rest := cs.dropWhile (·.isUpper)
  decide (2 ≤ letters.length) && decide (letters.length ≤ 4) &&
  decide (3 ≤ rest.length) && decide (rest.length ≤ 4) &&
  rest.all (·.isDigit)

/-- `AddressBase` (`src/models/address.py`): five required plain-string
attributes.  Pydantic places no constraint on the strings themselves. -/
structure AddressBase where
  street : String
  city : String
  state : String
  postal_code : String
  country : String
  deriving DecidableEq, Repr

/-- `AddressRead`: the base attributes plus the server-assigned identifier
and timestamps. -/
structure AddressRead extends AddressBase where
  address_id : Nat
  created_at : Nat
  updated_at : Nat
  deriving DecidableEq, Repr

/-- Raw JSON body of an `AddressCreate` request: every field may be absent,
`null`, or a string. -/
structure AddressCreate where
  street : JField String
  city : JField String
  state : JField String
  postal_code : JField String
  country : JField String
  deriving DecidableEq, Repr

/-- Validation of one required `str` field (declared `Field(...)` with no
further constraint): it errors exactly when absent or `null`; any string
value, the empty string included, is accepted. -/
def requiredStrErrors (nm : String) (f : JField String) : List String :=
  match f with
  | .val _ => []
  | _ => [nm]

/-- Validation of the `Optional[CourseIDType]` field: only a present
non-null value is checked against the pattern. -/
def courseIDErrors (f : JField String) : List String :=
  match f with
  | .val s => if matchCourseID s then [] else ["university_id"]
  | _ => []

/-- Validation of a required `EduEmail` field: absent or `null` errors;
a value is whitespace-stripped and then checked against the pattern. -/
def eduEmailErrors (f : JField String) : List String :=
  match f with
  | .val s => if matchEduEmail (pyStrip s) then [] else ["email"]
  | _ => ["email"]

/-- Validation of a defaulted field (`status`, `address`): absence takes
the default, a value is accepted, `null` is a type error. -/
def noNullErrors (nm : String) (f : JField α) : List String :=
  match f with
  | .null => [nm]
  | _ => []

/-- Fields of an `AddressCreate` body that fail pydantic validation, in
field declaration order. -/
def addressCreateErrors (p : AddressCreate) : List String :=
  requiredStrErrors "street" p.street ++
  requiredStrErrors "city" p.city ++
  requiredStrErrors "state" p.state ++
  requiredStrErrors "postal_code" p.postal_code ++
  requiredStrErrors "country" p.country

/-- Successful pydantic parse of an `AddressCreate` body. -/
def validateAddressCreate (p : AddressCreate) : Option AddressBase :=
  match p.street, p.city, p.state, p.postal_code, p.country with
  | .val st, .val ci, .val sa, .val pc, .val co =>
      some ⟨st, ci, sa, pc, co⟩
  | _, _, _, _, _ => none

/-- `AddressUpdate` body (`src/models/address.py`): every field
`Optional[str]`, presence-significant.  No field carries a format
constraint, so any body of this shape passes validation. -/
structure AddressUpdate where
  street : JField String
  city : JField String
  state : JField String
  postal_code : JField String
  country : JField String
  deriving DecidableEq, Repr

/-- `create_address` (`src/main.py` lines 122-132): returns an
`AddressRead` built from the validated payload, a fresh identifier and two
separate `datetime.now(UTC)` reads, one for `created_at` and one for
`updated_at` (lines 129-130); nothing forces the two reads to be equal. -/
def create_address (address : AddressBase) (newId : Nat)
    (createdNow updatedNow : Nat) : AddressRead :=
  { toAddressBase := address
    address_id := newId
    created_at := createdNow
    updated_at := updatedNow }

/-- Value a merged dict holds at a key whose existing value is `e` after
`data.update(patch.model_dump(exclude_unset=True))`: an absent patch field
leaves `e`, `null` overwrites with `None`, a value overwrites with it. -/
def mergedVal (e : α) (p : JField α) : Option α :=
  match p with
  | .missing => some e
  | .null => none
  | .val v => some v

/-- Same merge on a key whose existing value is already optional. -/
def mergedOpt (e : Option α) (p : JField α) : Option α :=
  match p with
  | .missing => e
  | .null => none
  | .val v => some v

/-- `update_address` (`src/main.py`): dump the existing record, overlay the
set fields of the patch, stamp `updated_at`, and re-validate through
`AddressRead(**data)`.  Re-validation fails (the handler raises) when a
required string field was overwritten with `None`; `address_id` and
`created_at` are absent from `AddressUpdate` so they keep the existing
values. -/
def update_address (existing : AddressRead) (patch : AddressUpdate)
    (now : Nat) : Option AddressRead :=
  match mergedVal existing.street patch.street,
      mergedVal existing.city patch.city,
      mergedVal existing.state patch.state,
      mergedVal existing.postal_code patch.postal_code,
      mergedVal existing.country patch.country with
  | some st, some ci, some sa, some pc, some co =>
      some { street := st
             city := ci
             state := sa
             postal_code := pc
             country := co
             address_id := existing.address_id
             created_at := existing.created_at
             updated_at := now }
  | _, _, _, _, _ => none

/-- `CustomerBase` attributes (`src/models/customer.py`), as held by a
validated record: `first_name`, `last_name`, `email`, `status` are plain
strings; the rest optional; `address` an embedded list. -/
structure CustomerBase where
  first_name : String
  middle_name : Option String
  last_name : String
  university_id : Option String
  email : String
  phone : Option String
  address : List AddressBase
  birth_date : Option Nat
  status : String
  deriving DecidableEq, Repr

/-- `CustomerRead`: the base attributes plus the server-assigned identifier
and timestamps. -/
structure CustomerRead extends CustomerBase where
  customer_id : Nat
  created_at : Nat
  updated_at : Nat
  deriving DecidableEq, Repr

/-- Raw JSON body of a `CustomerCreate` request.  Elements of the `address`
list are themselves `AddressBase` values (their element-level validation is
the required-field check of `addressCreateErrors`). -/
structure CustomerCreate where
  first_name : JField String
  middle_name : JField String
  last_name : JField String
  university_id : JField String
  email : JField String
  phone : JField String
  address : JField (List AddressBase)
  birth_date : JField Nat
  status : JField String
  deriving DecidableEq, Repr

/-- Fields of a `CustomerCreate` body failing pydantic validation, in field
declaration order: `first_name` and `last_name` are required `str` (absent
or `null` errors; any string accepted); `university_id` is
`Optional[CourseIDType]` (only a present non-null value is pattern
checked); `email` is a required `EduEmail` (whitespace-stripped, then
pattern checked); `address` defaults to `[]` but rejects `null`; `status`
defaults to `"active"` but rejects `null`. -/
def customerCreateErrors (p : CustomerCreate) : List String :=
  requiredStrErrors "first_name" p.first_name ++
  requiredStrErrors "last_name" p.last_name ++
  courseIDErrors p.university_id ++
  eduEmailErrors p.email ++
  noNullErrors "address" p.address ++
  noNullErrors "status" p.status

/-- Successful pydantic parse of a `CustomerCreate` body: the validated
record stores the whitespace-stripped email, defaults `address` to `[]`
and `status` to `"active"`. -/
def validateCustomerCreate (p : CustomerCreate) : Option CustomerBase :=
  if customerCreateErrors p = [] then
    match p.first_name, p.last_name, p.email with
    | .val fn, .val ln, .val em =>
        some { first_name := fn
               middle_name := p.middle_name.toOption
               last_name := ln
               university_id := p.university_id.toOption
               email := pyStrip em
               phone := p.phone.toOption
               address := (p.address.toOption).getD []
               birth_date := p.birth_date.toOption
               status := (p.status.toOption).getD "active" }
    | _, _, _ => none
  else none

/-- `CustomerUpdate` body (`src/models/customer.py` lines 132-142): every
field optional and presence-significant.  Only `email` is declared
`Optional[EduEmail]`; in particular `university_id` is a plain
`Optional[str]` there, carrying no pattern constraint at patch time. -/
structure CustomerUpdate where
  first_name : JField String
  middle_name : JField String
  last_name : JField String
  university_id : JField String
  email : JField String
  phone : JField String
  address : JField (List AddressBase)
  birth_date : JField Nat
  status : JField String
  deriving DecidableEq, Repr

/-- Fields of a `CustomerUpdate` body failing pydantic validation: only a
present non-null `email` is checked (stripped, then matched); every other
field accepts any value of its shape. -/
def customerUpdateErrors (p : CustomerUpdate) : List String :=
  match p.email with
  | .val s => if matchEduEmail (pyStrip s) then [] else ["email"]
  | _ => []

/-- `create_customer` (`src/main.py` lines 46-56): returns a
`CustomerRead` built from the validated payload, a fresh identifier and
two separate `datetime.now(UTC)` reads, one for `created_at` and one for
`updated_at` (lines 53-54); nothing forces the two reads to be equal. -/
def create_customer (customer : CustomerBase) (newId : Nat)
    (createdNow updatedNow : Nat) : CustomerRead :=
  { toCustomerBase := customer
    customer_id := newId
    created_at := createdNow
    updated_at := updatedNow }

/-- `get_customer_by_id` (`src/main.py` lines 58-81): ignores its
`customer_id` path argument and fabricates the same hardcoded record with
a fresh identifier and two separate `datetime.now(UTC)` reads for
`created_at` and `updated_at` (lines 79-80); no not-found path exists. -/
def get_customer_by_id (customer_id : String) (newId : Nat)
    (createdNow updatedNow : Nat) : CustomerRead :=
  { customer_id := newId
    first_name := "Rahul"
    middle_name := some "K."
    last_name := "Singh"
    university_id := some "UNI0001"
    email := "rahul.singh@columbia.edu"
    phone := some "+1-555-123-4567"
    birth_date := some 19950520
    status := "active"
    address := [{ street := "123 Broadway Ave"
                  city := "New York"
                  state := "NY"
                  postal_code := "10027"
                  country := "USA" }]
    created_at := createdNow
    updated_at := updatedNow }

/-- `update_customer` (`src/main.py` lines 83-113), merge and
re-validation: dump the existing record, overlay the set fields of the
patch, stamp `updated_at`, and rebuild through `CustomerRead(**data)`.
Re-validation fails (the handler raises) when a required field was
overwritten with `None`, when the merged `email` does not match `EduEmail`
after stripping, or when a merged non-null `university_id` does not match
`CourseIDType`.  `customer_id` and `created_at` are absent from
`CustomerUpdate` so they keep the existing values. -/
def update_customer (existing : CustomerRead) (patch : CustomerUpdate)
    (now : Nat) : Option CustomerRead :=
  match mergedVal existing.first_name patch.first_name,
      mergedVal existing.last_name patch.last_name,
      mergedVal existing.email patch.email,
      mergedVal existing.address patch.address,
      mergedVal existing.status patch.status with
  | some fn, some ln, some em, some ad, some st =>
      if matchEduEmail (pyStrip em) &&
          (match mergedOpt existing.university_id patch.university_id with
            | some u => matchCourseID u
            | none => true) then
        some { first_name := fn
               middle_name := mergedOpt existing.middle_name patch.middle_name
               last_name := ln
               university_id := mergedOpt existing.university_id patch.university_id
               email := pyStrip em
               phone := mergedOpt existing.phone patch.phone
               address := ad
               birth_date := mergedOpt existing.birth_date patch.birth_date
               status := st
               customer_id := existing.customer_id
               created_at := existing.created_at
               updated_at := now }
      else none
  | _, _, _, _, _ => none

/-- The `CustomerUpdate` body with every field absent. -/
def emptyCustomerUpdate : CustomerUpdate :=
  { first_name := .missing
    middle_name := .missing
    last_name := .missing
    university_id := .missing
    email := .missing
    phone := .missing
    address := .missing
    birth_date := .missing
    status := .missing }

/-- The `AddressUpdate` body with every field absent. -/
def emptyAddressUpdate : AddressUpdate :=
  { street := .missing
    city := .missing
    state := .missing
    postal_code := .missing
    country := .missing }

/-- The `CustomerCreate` body with every field absent. -/
def emptyCustomerCreate : CustomerCreate :=
  { first_name := .missing
    middle_name := .missing
    last_name := .missing
    university_id := .missing
    email := .missing
    phone := .missing
    address := .missing
    birth_date := .missing
    status := .missing }

/-- A concrete existing `CustomerRead`, the hardcoded record the patch
handler fabricates. -/
def exampleCustomer : CustomerRead :=
  get_customer_by_id "any" 42 100 100

/-- A concrete existing `AddressRead`, the hardcoded record the address
patch handler fabricates. -/
def exampleAddress : AddressRead :=
  { street := "123 Broadway Ave"
    city := "New York"
    state := "NY"
    postal_code := "10027"
    country := "USA"
    address_id := 7
    created_at := 100
    updated_at := 100 }

/-- Patch that explicitly sets `first_name` to `null` (legal for the
`Optional[str]` update field). -/
def nullNamePatch : CustomerUpdate :=
  { emptyCustomerUpdate with first_name := .null }

/-- Patch setting only `status`. -/
def statusPatch : CustomerUpdate :=
  { emptyCustomerUpdate with status := .val "inactive" }

/-- The record `update_customer exampleCustomer statusPatch 5` produces. -/
def mergedExample : CustomerRead :=
  { exampleCustomer with status := "inactive", updated_at := 5 }

/-- Create body whose email carries surrounding whitespace. -/
def unstrippedPayload : CustomerCreate :=
  { emptyCustomerCreate with
    first_name := .val "Rahul"
    last_name := .val "Singh"
    email := .val " rahul@columbia.edu " }

/-- The entity `validateCustomerCreate unstrippedPayload` produces: its
email is stored whitespace-stripped. -/
def strippedCustomer : CustomerBase :=
  { first_name := "Rahul", middle_name := none, last_name := "Singh",
    university_id := none, email := "rahul@columbia.edu", phone := none,
    address := [], birth_date := none, status := "active" }

/-- Update body whose `university_id` value matches no part of the
`CourseIDType` pattern. -/
def badUidPatch : CustomerUpdate :=
  { emptyCustomerUpdate with university_id := .val "ab12" }

/-- A replacement address. -/
def newAddr : AddressBase :=
  { street := "456 Elm Street", city := "Boston", state := "MA",
    postal_code := "02118", country := "USA" }

/-- Patch supplying a whole new address list. -/
def addrPatch : CustomerUpdate :=
  { emptyCustomerUpdate with address := .val [newAddr] }

/-- The record `update_customer exampleCustomer addrPatch 6` produces. -/
def mergedAddrExample : CustomerRead :=
  { exampleCustomer with address := [newAddr], updated_at := 6 }

/-- Customer create body whose required names are empty strings. -/
def emptyNamesPayload : CustomerCreate :=
  { emptyCustomerCreate with
    first_name := .val ""
    last_name := .val ""
    email := .val "a@b.edu" }

/-- Address create body made of five empty strings. -/
def emptyStringsAddress : AddressCreate :=
  { street := .val "", city := .val "", state := .val "",
    postal_code := .val "", country := .val "" }

/-! ## Helper lemmas -/

/-- Dropping a satisfied prefix is stable under first dropping a satisfied
suffix. -/
theorem dropWhile_rdropWhile_eq_self {p : α → Bool} {l : List α}
    (h : l.dropWhile p = l) :
    (List.rdropWhile p l).dropWhile p = List.rdropWhile p l := by
  obtain ⟨t, ht⟩ := List.rdropWhile_prefix p l
  cases hB : List.rdropWhile p l with
  | nil => rfl
  | cons b bs =>
      rw [List.dropWhile_cons]
      rw [hB] at ht
      rw [← ht] at h
      rw [List.cons_append, List.dropWhile_cons] at h
      by_cases hp : p b
      · simp only [hp, if_true] at h
        exfalso
        have hlen := congrArg List.length h
        have hle := (List.dropWhile_suffix p (l := bs ++ t)).sublist.length_le
        simp at hlen hle
        omega
      · simp [hp]

/-- Stripping whitespace is idempotent. -/
theorem pyStrip_idem (s : String) : pyStrip (pyStrip s) = pyStrip s := by
  unfold pyStrip
  congr 1
  have h1 : (s.data.dropWhile Char.isWhitespace).dropWhile Char.isWhitespace
      = s.data.dropWhile Char.isWhitespace := List.dropWhile_idempotent _ _
  have h2 := dropWhile_rdropWhile_eq_self h1
  rw [h2, List.rdropWhile_idempotent]

/-- A merged dict value is stable under merging the same patch field
again. -/
theorem mergedVal_self {e v : α} {p : JField α} (h : mergedVal e p = some v) :
    mergedVal v p = some v := by
  cases p <;> simp_all [mergedVal]

/-- Merging the same patch field twice on an optional key equals merging
it once. -/
theorem mergedOpt_self (e : Option α) (p : JField α) :
    mergedOpt (mergedOpt e p) p = mergedOpt e p := by
  cases p <;> simp [mergedOpt]

/-- Everything a successful `update_customer` says about its result: each
merged field, the re-validation checks, and the untouched server fields. -/
theorem update_customer_some {e : CustomerRead} {p : CustomerUpdate}
    {now : Nat} {r : CustomerRead} (h : update_customer e p now = some r) :
    mergedVal e.first_name p.first_name = some r.first_name ∧
    mergedVal e.last_name p.last_name = some r.last_name ∧
    (∃ em, mergedVal e.email p.email = some em ∧ r.email = pyStrip em ∧
      matchEduEmail (pyStrip em) = true) ∧
    mergedVal e.address p.address = some r.address ∧
    mergedVal e.status p.status = some r.status ∧
    r.middle_name = mergedOpt e.middle_name p.middle_name ∧
    r.university_id = mergedOpt e.university_id p.university_id ∧
    r.phone = mergedOpt e.phone p.phone ∧
    r.birth_date = mergedOpt e.birth_date p.birth_date ∧
    (∀ u, r.university_id = some u → matchCourseID u = true) ∧
    r.customer_id = e.customer_id ∧ r.created_at = e.created_at ∧
    r.updated_at = now := by
  unfold update_customer at h
  split at h
  case _ fn ln em ad st hfn hln hem had hst =>
    split at h
    case isTrue hc =>
      rw [Option.some.injEq] at h
      subst h
      simp only [Bool.and_eq_true] at hc
      refine ⟨hfn, hln, ⟨em, hem, rfl, hc.1⟩, had, hst, rfl, rfl, rfl, rfl,
        ?_, rfl, rfl, rfl⟩
      intro u hu
      dsimp only at hu
      rw [hu] at hc
      simpa using hc.2
    case isFalse => exact absurd h (by simp)
  case _ => exact absurd h (by simp)

/-- Everything a successful `update_address` says about its result. -/
theorem update_address_some {e : AddressRead} {p : AddressUpdate}
    {now : Nat} {r : AddressRead} (h : update_address e p now = some r) :
    mergedVal e.street p.street = some r.street ∧
    mergedVal e.city p.city = some r.city ∧
    mergedVal e.state p.state = some r.state ∧
    mergedVal e.postal_code p.postal_code = some r.postal_code ∧
    mergedVal e.country p.country = some r.country ∧
    r.address_id = e.address_id ∧ r.created_at = e.created_at ∧
    r.updated_at = now := by
  unfold update_address at h
  split at h
  case _ st ci sa pc co hst hci hsa hpc hco =>
    rw [Option.some.injEq] at h
    subst h
    exact ⟨hst, hci, hsa, hpc, hco, rfl, rfl, rfl⟩
  case _ => exact absurd h (by simp)

/-- A present patch field ends up verbatim in the merged dict. -/
theorem mergedVal_val_eq {e v w : α} (h : mergedVal e (JField.val v) = some w) :
    w = v := by
  simp [mergedVal] at h
  exact h.symm

/-- An absent patch field leaves the merged dict value unchanged. -/
theorem mergedVal_missing_eq {e w : α} (h : mergedVal e .missing = some w) :
    w = e := by
  simp [mergedVal] at h
  exact h.symm

/-- A member of a required-field error chunk is that field's name. -/
theorem mem_requiredStrErrors {x nm : String} {f : JField String}
    (h : x ∈ requiredStrErrors nm f) : x = nm := by
  cases f <;> simp_all [requiredStrErrors]

/-- A member of the `university_id` error chunk is `"university_id"`. -/
theorem mem_courseIDErrors {x : String} {f : JField String}
    (h : x ∈ courseIDErrors f) : x = "university_id" := by
  cases f with
  | val s =>
      unfold courseIDErrors at h
      split at h <;> simp_all
  | missing => simp_all [courseIDErrors]
  | null => simp_all [courseIDErrors]

/-- A member of the email error chunk is `"email"`. -/
theorem mem_eduEmailErrors {x : String} {f : JField String}
    (h : x ∈ eduEmailErrors f) : x = "email" := by
  cases f with
  | val s =>
      unfold eduEmailErrors at h
      split at h <;> simp_all
  | missing => simp_all [eduEmailErrors]
  | null => simp_all [eduEmailErrors]

/-- A member of a defaulted-field error chunk is that field's name. -/
theorem mem_noNullErrors {x nm : String} {f : JField α}
    (h : x ∈ noNullErrors nm f) : x = nm := by
  cases f <;> simp_all [noNullErrors]

/-- `"email"` occurs among the create errors exactly when the email chunk
holds it. -/
theorem email_mem_customerCreateErrors (p : CustomerCreate) :
    "email" ∈ customerCreateErrors p ↔ "email" ∈ eduEmailErrors p.email := by
  unfold customerCreateErrors
  simp only [List.mem_append, or_assoc]
  constructor
  · rintro (h | h | h | h | h | h)
    · exact absurd (mem_requiredStrErrors h) (by decide)
    · exact absurd (mem_requiredStrErrors h) (by decide)
    · exact absurd (mem_courseIDErrors h) (by decide)
    · exact h
    · exact absurd (mem_noNullErrors h) (by decide)
    · exact absurd (mem_noNullErrors h) (by decide)
  · intro h
    exact Or.inr (Or.inr (Or.inr (Or.inl h)))

/-- `"university_id"` occurs among the create errors exactly when the
`university_id` chunk holds it. -/
theorem uid_mem_customerCreateErrors (p : CustomerCreate) :
    "university_id" ∈ customerCreateErrors p ↔
      "university_id" ∈ courseIDErrors p.university_id := by
  unfold customerCreateErrors
  simp only [List.mem_append, or_assoc]
  constructor
  · rintro (h | h | h | h | h | h)
    · exact absurd (mem_requiredStrErrors h) (by decide)
    · exact absurd (mem_requiredStrErrors h) (by decide)
    · exact h
    · exact absurd (mem_eduEmailErrors h) (by decide)
    · exact absurd (mem_noNullErrors h) (by decide)
    · exact absurd (mem_noNullErrors h) (by decide)
  · intro h
    exact Or.inr (Or.inr (Or.inl h))

/-- A required-field chunk is empty exactly when the field carries a
value. -/
theorem requiredStrErrors_eq_nil {nm : String} {f : JField String} :
    requiredStrErrors nm f = [] ↔ ∃ s, f = .val s := by
  cases f <;> simp [requiredStrErrors]

/-! ## Claim theorems -/

/-- C1 (amended): whenever the merge of a validated patch into an existing
Customer (or Address) Read entity produces a result — the handler raises
instead when a patch field explicitly set to null lands on a required
field, or the merged email / university_id fails Read re-validation —
every attribute supplied by the patch equals the patch's value (email
re-stripped), every absent attribute keeps the existing entity's value
(email re-normalised by the same stripping), and the identifier and
created_at are the existing entity's, with updated_at set to the merge
time. -/
theorem merge_overwrites_present_retains_absent
    (e : CustomerRead) (p : CustomerUpdate) (now : Nat) (r : CustomerRead)
    (hv : customerUpdateErrors p = [])
    (h : update_customer e p now = some r) :
    (r.customer_id = e.customer_id ∧ r.created_at = e.created_at ∧
      r.updated_at = now) ∧
    (∀ v, p.first_name = .val v → r.first_name = v) ∧
    (p.first_name = .missing → r.first_name = e.first_name) ∧
    (∀ v, p.middle_name = .val v → r.middle_name = some v) ∧
    (p.middle_name = .missing → r.middle_name = e.middle_name) ∧
    (∀ v, p.last_name = .val v → r.last_name = v) ∧
    (p.last_name = .missing → r.last_name = e.last_name) ∧
    (∀ v, p.university_id = .val v → r.university_id = some v) ∧
    (p.university_id = .missing → r.university_id = e.university_id) ∧
    (∀ v, p.email = .val v → r.email = pyStrip v) ∧
    (p.email = .missing → r.email = pyStrip e.email) ∧
    (∀ v, p.phone = .val v → r.phone = some v) ∧
    (p.phone = .missing → r.phone = e.phone) ∧
    (∀ v, p.address = .val v → r.address = v) ∧
    (p.address = .missing → r.address = e.address) ∧
    (∀ v, p.birth_date = .val v → r.birth_date = some v) ∧
    (p.birth_date = .missing → r.birth_date = e.birth_date) ∧
    (∀ v, p.status = .val v → r.status = v) ∧
    (p.status = .missing → r.status = e.status) ∧
    (∀ (e2 : AddressRead) (p2 : AddressUpdate) (n2 : Nat) (r2 : AddressRead),
      update_address e2 p2 n2 = some r2 →
      (r2.address_id = e2.address_id ∧ r2.created_at = e2.created_at ∧
        r2.updated_at = n2) ∧
      (∀ v, p2.street = .val v → r2.street = v) ∧
      (p2.street = .missing → r2.street = e2.street) ∧
      (∀ v, p2.city = .val v → r2.city = v) ∧
      (p2.city = .missing → r2.city = e2.city) ∧
      (∀ v, p2.state = .val v → r2.state = v) ∧
      (p2.state = .missing → r2.state = e2.state) ∧
      (∀ v, p2.postal_code = .val v → r2.postal_code = v) ∧
      (p2.postal_code = .missing → r2.postal_code = e2.postal_code) ∧
      (∀ v, p2.country = .val v → r2.country = v) ∧
      (p2.country = .missing → r2.country = e2.country)) := by
  obtain ⟨c1, c2, ⟨em, hem, hre, -⟩, c4, c5, cm, cu, cp, cb, -, cid, ccr, cup⟩ :=
    update_customer_some h
  refine ⟨⟨cid, ccr, cup⟩, ?_, ?_, ?_, ?_, ?_, ?_, ?_, ?_, ?_, ?_, ?_, ?_,
    ?_, ?_, ?_, ?_, ?_, ?_, ?_⟩
  · intro v hv0; rw [hv0] at c1; exact mergedVal_val_eq c1
  · intro hv0; rw [hv0] at c1; exact mergedVal_missing_eq c1
  · intro v hv0; rw [cm, hv0]; rfl
  · intro hv0; rw [cm, hv0]; rfl
  · intro v hv0; rw [hv0] at c2; exact mergedVal_val_eq c2
  · intro hv0; rw [hv0] at c2; exact mergedVal_missing_eq c2
  · intro v hv0; rw [cu, hv0]; rfl
  · intro hv0; rw [cu, hv0]; rfl
  · intro v hv0; rw [hv0] at hem
    have := mergedVal_val_eq hem
    rw [hre, this]
  · intro hv0; rw [hv0] at hem
    have := mergedVal_missing_eq hem
    rw [hre, this]
  · intro v hv0; rw [cp, hv0]; rfl
  · intro hv0; rw [cp, hv0]; rfl
  · intro v hv0; rw [hv0] at c4; exact mergedVal_val_eq c4
  · intro hv0; rw [hv0] at c4; exact mergedVal_missing_eq c4
  · intro v hv0; rw [cb, hv0]; rfl
  · intro hv0; rw [cb, hv0]; rfl
  · intro v hv0; rw [hv0] at c5; exact mergedVal_val_eq c5
  · intro hv0; rw [hv0] at c5; exact mergedVal_missing_eq c5
  · intro e2 p2 n2 r2 h2
    obtain ⟨a1, a2, a3, a4, a5, aid, acr, aup⟩ := update_address_some h2
    refine ⟨⟨aid, acr, aup⟩, ?_, ?_, ?_, ?_, ?_, ?_, ?_, ?_, ?_, ?_⟩
    · intro v hv0; rw [hv0] at a1; exact mergedVal_val_eq a1
    · intro hv0; rw [hv0] at a1; exact mergedVal_missing_eq a1
    · intro v hv0; rw [hv0] at a2; exact mergedVal_val_eq a2
    · intro hv0; rw [hv0] at a2; exact mergedVal_missing_eq a2
    · intro v hv0; rw [hv0] at a3; exact mergedVal_val_eq a3
    · intro hv0; rw [hv0] at a3; exact mergedVal_missing_eq a3
    · intro v hv0; rw [hv0] at a4; exact mergedVal_val_eq a4
    · intro hv0; rw [hv0] at a4; exact mergedVal_missing_eq a4
    · intro v hv0; rw [hv0] at a5; exact mergedVal_val_eq a5
    · intro hv0; rw [hv0] at a5; exact mergedVal_missing_eq a5

/-- C1 counterexample: the patch that explicitly nulls `first_name` is a
valid CustomerUpdate, yet the merge produces no result (the handler's
`CustomerRead(**data)` re-validation raises), so the claim's unconditional
"produces a result" fails. -/
theorem merge_null_first_name_no_result :
    customerUpdateErrors nullNamePatch = [] ∧
    update_customer exampleCustomer nullNamePatch 5 = none := by
  constructor
  · rfl
  · rfl

/-- C1 witness: the frame theorem applied to a concrete status-only
patch. -/
theorem merge_frame_witness :
    update_customer exampleCustomer statusPatch 5 = some mergedExample ∧
    (mergedExample.customer_id = exampleCustomer.customer_id ∧
      mergedExample.created_at = exampleCustomer.created_at ∧
      mergedExample.updated_at = 5) := by
  have H := merge_overwrites_present_retains_absent exampleCustomer statusPatch 5
    mergedExample (by rfl) (by rfl)
  exact ⟨by rfl, H.1⟩

/-- C2 (amended): a present create email fails validation — with a
ValidationError naming `email` — exactly when, after the whitespace
stripping that `strip_whitespace=True` performs first, the value does not
match `^[\w.-]+@[\w.-]+\.edu$`; in particular every whitespace-free
non-matching string such as "a@b.com" or one ending in ".EDU" is rejected,
and every matching value is accepted. -/
theorem create_email_validation_after_strip (p : CustomerCreate) (s : String)
    (h : p.email = .val s) :
    "email" ∈ customerCreateErrors p ↔ matchEduEmail (pyStrip s) = false := by
  rw [email_mem_customerCreateErrors, h]
  unfold eduEmailErrors
  dsimp only
  split_ifs with hm
  · simp [hm]
  · simp [hm, Bool.eq_false_iff]

/-- C2 counterexample: the raw email string " rahul@columbia.edu " does
not match the pattern, yet create validation accepts the payload because
the value is stripped before the pattern check — the claim's raw-string
reading fails. -/
theorem create_unstripped_email_accepted :
    matchEduEmail " rahul@columbia.edu " = false ∧
    customerCreateErrors unstrippedPayload = [] ∧
    validateCustomerCreate unstrippedPayload =
      some { first_name := "Rahul", middle_name := none, last_name := "Singh",
             university_id := none, email := "rahul@columbia.edu", phone := none,
             address := [], birth_date := none, status := "active" } :=
  ⟨by decide, by decide, by decide⟩

/-- C2 witness: the amended theorem applied to the concrete whitespace
payload. -/
theorem create_email_validation_witness :
    unstrippedPayload.email = .val " rahul@columbia.edu " ∧
    ("email" ∈ customerCreateErrors unstrippedPayload ↔
      matchEduEmail (pyStrip " rahul@columbia.edu ") = false) :=
  ⟨rfl, create_email_validation_after_strip unstrippedPayload
    " rahul@columbia.edu " rfl⟩

/-- C3: a present create `university_id` is accepted exactly when it
matches `^[A-Z]{2,4}\d{3,4}$`; an absent one is always accepted; "AB12"
(only two digits) is rejected while "ABCD1234" and "AB123" are
accepted. -/
theorem university_id_create_validation (p : CustomerCreate) :
    (∀ s, p.university_id = .val s →
      ("university_id" ∈ customerCreateErrors p ↔ matchCourseID s = false)) ∧
    (p.university_id = .missing → "university_id" ∉ customerCreateErrors p) ∧
    matchCourseID "AB12" = false ∧ matchCourseID "ABCD1234" = true ∧
    matchCourseID "AB123" = true := by
  refine ⟨?_, ?_, by decide, by decide, by decide⟩
  · intro s hs
    rw [uid_mem_customerCreateErrors, hs]
    unfold courseIDErrors
    dsimp only
    split_ifs with hm
    · simp [hm]
    · simp [hm, Bool.eq_false_iff]
  · intro hs
    rw [uid_mem_customerCreateErrors, hs]
    simp [courseIDErrors]

/-- C4 (amended): `CustomerUpdate` declares `university_id` as a plain
`Optional[str]`, so a present non-matching `university_id` passes patch
validation (no ValidationError names it); the violation only surfaces when
the merge re-validates the merged record through `CustomerRead(**data)`,
which then produces no result. -/
theorem update_university_id_unchecked_until_merge
    (p : CustomerUpdate) (s : String) (e : CustomerRead) (now : Nat)
    (h : p.university_id = .val s) (hbad : matchCourseID s = false) :
    "university_id" ∉ customerUpdateErrors p ∧
    update_customer e p now = none := by
  constructor
  · intro hmem
    unfold customerUpdateErrors at hmem
    rcases hp : p.email with _ | _ | t <;> rw [hp] at hmem
    · simp at hmem
    · simp at hmem
    · dsimp only at hmem
      split_ifs at hmem <;> simp_all
  · unfold update_customer
    split
    case _ fn ln em ad st hfn hln hem had hst =>
      have huni : mergedOpt e.university_id p.university_id = some s := by
        rw [h]; rfl
      rw [huni]
      dsimp only
      rw [hbad]
      simp
    case _ => rfl

/-- C4 counterexample: the patch with `university_id = "ab12"` (which
matches no part of the pattern) passes `CustomerUpdate` validation with no
error at all, contradicting the claim that it is rejected with a
ValidationError. -/
theorem update_bad_university_id_passes_validation :
    badUidPatch.university_id = .val "ab12" ∧
    matchCourseID "ab12" = false ∧
    customerUpdateErrors badUidPatch = [] :=
  ⟨rfl, by decide, by decide⟩

/-- C4 witness: the amended theorem applied to the concrete bad patch. -/
theorem update_university_id_witness :
    "university_id" ∉ customerUpdateErrors badUidPatch ∧
    update_customer exampleCustomer badUidPatch 7 = none :=
  update_university_id_unchecked_until_merge badUidPatch "ab12" exampleCustomer 7
    rfl (by decide)

/-- C5 (amended): a successful create returns a Read entity whose
identifier is the freshly supplied server value and whose created_at and
updated_at each take one of the handler's two separate
`datetime.now(UTC)` reads — so the two timestamps are equal exactly when
the two clock reads coincide, which the program does not force — and whose
remaining fields are exactly the validated payload's: each supplied field
verbatim except the email, which is stored whitespace-stripped; an omitted
status defaults to "active", an omitted address list to []. -/
theorem create_returns_id_timestamps_and_fields
    (p : CustomerCreate) (b : CustomerBase) (newId createdNow updatedNow : Nat)
    (h : validateCustomerCreate p = some b) :
    ((create_customer b newId createdNow updatedNow).customer_id = newId ∧
      (create_customer b newId createdNow updatedNow).created_at = createdNow ∧
      (create_customer b newId createdNow updatedNow).updated_at = updatedNow ∧
      (createdNow = updatedNow →
        (create_customer b newId createdNow updatedNow).created_at =
          (create_customer b newId createdNow updatedNow).updated_at) ∧
      (create_customer b newId createdNow updatedNow).toCustomerBase = b) ∧
    (∀ s, p.first_name = .val s → b.first_name = s) ∧
    (∀ s, p.middle_name = .val s → b.middle_name = some s) ∧
    (p.middle_name = .missing → b.middle_name = none) ∧
    (∀ s, p.last_name = .val s → b.last_name = s) ∧
    (∀ s, p.university_id = .val s → b.university_id = some s) ∧
    (p.university_id = .missing → b.university_id = none) ∧
    (∀ s, p.email = .val s → b.email = pyStrip s) ∧
    (∀ s, p.phone = .val s → b.phone = some s) ∧
    (p.phone = .missing → b.phone = none) ∧
    (∀ l, p.address = .val l → b.address = l) ∧
    (p.address = .missing → b.address = []) ∧
    (∀ d, p.birth_date = .val d → b.birth_date = some d) ∧
    (p.birth_date = .missing → b.birth_date = none) ∧
    (∀ s, p.status = .val s → b.status = s) ∧
    (p.status = .missing → b.status = "active") ∧
    (∀ (a : AddressBase) (i2 c2 u2 : Nat),
      (create_address a i2 c2 u2).address_id = i2 ∧
      (create_address a i2 c2 u2).created_at = c2 ∧
      (create_address a i2 c2 u2).updated_at = u2 ∧
      (create_address a i2 c2 u2).toAddressBase = a) := by
  unfold validateCustomerCreate at h
  split at h
  case isTrue =>
    split at h
    case _ fn ln em hfn hln hem =>
      rw [Option.some.injEq] at h
      subst h
      refine ⟨⟨rfl, rfl, rfl, fun hc => hc, rfl⟩, ?_, ?_, ?_, ?_, ?_,
        ?_, ?_, ?_, ?_, ?_, ?_, ?_, ?_, ?_, ?_,
        fun a i2 c2 u2 => ⟨rfl, rfl, rfl, rfl⟩⟩
      · intro s hs; rw [hfn] at hs; injection hs
      · intro s hs; simp [JField.toOption, hs]
      · intro hs; simp [JField.toOption, hs]
      · intro s hs; rw [hln] at hs; injection hs
      · intro s hs; simp [JField.toOption, hs]
      · intro hs; simp [JField.toOption, hs]
      · intro s hs; rw [hem] at hs; injection hs with hh; rw [hh]
      · intro s hs; simp [JField.toOption, hs]
      · intro hs; simp [JField.toOption, hs]
      · intro l hs; simp [JField.toOption, hs]
      · intro hs; simp [JField.toOption, hs]
      · intro d hs; simp [JField.toOption, hs]
      · intro hs; simp [JField.toOption, hs]
      · intro s hs; simp [JField.toOption, hs]
      · intro hs; simp [JField.toOption, hs]
    case _ => exact absurd h (by simp)
  case isFalse => exact absurd h (by simp)

/-- C5 counterexample: a valid payload carrying email
" rahul@columbia.edu " creates an entity whose email field differs from
the payload's value (it is stored stripped), so "all other field values
equal the payload's values" fails on the raw payload; and since
`created_at` and `updated_at` come from two separate `datetime.now(UTC)`
reads, the handler run in which the two reads differ yields
`created_at ≠ updated_at`, so the claimed equality is not guaranteed
either. -/
theorem create_email_not_verbatim :
    unstrippedPayload.email = .val " rahul@columbia.edu " ∧
    validateCustomerCreate unstrippedPayload = some strippedCustomer ∧
    (create_customer strippedCustomer 3 9 9).email ≠ " rahul@columbia.edu " ∧
    (create_customer strippedCustomer 3 9 10).created_at ≠
      (create_customer strippedCustomer 3 9 10).updated_at :=
  ⟨rfl, by decide, by decide, by decide⟩

/-- C5 witness: the amended theorem applied to the concrete payload, with
two distinct clock readings. -/
theorem create_fields_witness :
    validateCustomerCreate unstrippedPayload = some strippedCustomer ∧
    ((create_customer strippedCustomer 3 9 10).customer_id = 3 ∧
      (create_customer strippedCustomer 3 9 10).created_at = 9 ∧
      (create_customer strippedCustomer 3 9 10).updated_at = 10 ∧
      ((9 : Nat) = 10 →
        (create_customer strippedCustomer 3 9 10).created_at =
          (create_customer strippedCustomer 3 9 10).updated_at) ∧
      (create_customer strippedCustomer 3 9 10).toCustomerBase =
        strippedCustomer) := by
  have H := create_returns_id_timestamps_and_fields unstrippedPayload
    strippedCustomer 3 9 10 (by decide)
  exact ⟨by decide, H.1⟩

/-- C6: if the patch supplies an address list the merged result's list is
exactly the patch's list (no element-wise merging); if the patch omits it
the merged result keeps the existing list. -/
theorem update_replaces_address_list
    (e : CustomerRead) (p : CustomerUpdate) (now : Nat) (r : CustomerRead)
    (h : update_customer e p now = some r) :
    (∀ l, p.address = .val l → r.address = l) ∧
    (p.address = .missing → r.address = e.address) := by
  obtain ⟨-, -, -, c4, -, -, -, -, -, -, -, -, -⟩ := update_customer_some h
  constructor
  · intro l hl; rw [hl] at c4; exact mergedVal_val_eq c4
  · intro hl; rw [hl] at c4; exact mergedVal_missing_eq c4

/-- C6 witness: a patch carrying a one-element list replaces the whole
existing list. -/
theorem update_replaces_address_list_witness :
    update_customer exampleCustomer addrPatch 6 = some mergedAddrExample ∧
    mergedAddrExample.address = [newAddr] ∧
    exampleCustomer.address ≠ [newAddr] :=
  ⟨by decide,
   (update_replaces_address_list exampleCustomer addrPatch 6 mergedAddrExample
      (by decide)).1 [newAddr] rfl,
   by decide⟩

/-- C7 (amended): on create every required string field must be present
with a string value — an absent or explicitly null field yields a
ValidationError naming it — but no non-empty check exists: the empty
string is accepted for every such field. -/
theorem required_fields_presence_only :
    (∀ p : AddressCreate,
      (p.street = .missing ∨ p.street = .null →
        "street" ∈ addressCreateErrors p) ∧
      (p.city = .missing ∨ p.city = .null → "city" ∈ addressCreateErrors p) ∧
      (p.state = .missing ∨ p.state = .null →
        "state" ∈ addressCreateErrors p) ∧
      (p.postal_code = .missing ∨ p.postal_code = .null →
        "postal_code" ∈ addressCreateErrors p) ∧
      (p.country = .missing ∨ p.country = .null →
        "country" ∈ addressCreateErrors p) ∧
      (addressCreateErrors p = [] ↔ (validateAddressCreate p).isSome = true)) ∧
    (∀ q : CustomerCreate,
      (q.first_name = .missing ∨ q.first_name = .null →
        "first_name" ∈ customerCreateErrors q) ∧
      (q.last_name = .missing ∨ q.last_name = .null →
        "last_name" ∈ customerCreateErrors q)) ∧
    validateAddressCreate emptyStringsAddress =
      some { street := "", city := "", state := "", postal_code := "",
             country := "" } ∧
    customerCreateErrors emptyNamesPayload = [] := by
  refine ⟨?_, ?_, by decide, by decide⟩
  · intro p
    refine ⟨?_, ?_, ?_, ?_, ?_, ?_⟩
    · intro hf
      unfold addressCreateErrors
      rcases hf with hf | hf <;> rw [hf] <;> simp [requiredStrErrors]
    · intro hf
      unfold addressCreateErrors
      rcases hf with hf | hf <;> rw [hf] <;> simp [requiredStrErrors]
    · intro hf
      unfold addressCreateErrors
      rcases hf with hf | hf <;> rw [hf] <;> simp [requiredStrErrors]
    · intro hf
      unfold addressCreateErrors
      rcases hf with hf | hf <;> rw [hf] <;> simp [requiredStrErrors]
    · intro hf
      unfold addressCreateErrors
      rcases hf with hf | hf <;> rw [hf] <;> simp [requiredStrErrors]
    · constructor
      · intro hnil
        unfold addressCreateErrors at hnil
        simp only [List.append_eq_nil, requiredStrErrors_eq_nil,
          and_assoc] at hnil
        obtain ⟨⟨s1, h1⟩, ⟨s2, h2⟩, ⟨s3, h3⟩, ⟨s4, h4⟩, ⟨s5, h5⟩⟩ := hnil
        unfold validateAddressCreate
        rw [h1, h2, h3, h4, h5]
        rfl
      · intro hsome
        unfold validateAddressCreate at hsome
        split at hsome
        case _ st ci sa pc co h1 h2 h3 h4 h5 =>
          unfold addressCreateErrors
          rw [h1, h2, h3, h4, h5]
          rfl
        case _ => simp at hsome
  · intro q
    constructor
    · intro hf
      unfold customerCreateErrors
      rcases hf with hf | hf <;> rw [hf] <;> simp [requiredStrErrors]
    · intro hf
      unfold customerCreateErrors
      rcases hf with hf | hf <;> rw [hf] <;> simp [requiredStrErrors]

/-- C7 counterexample: the all-empty-strings Address payload and the
empty-names Customer payload are accepted without any ValidationError,
contradicting the claimed non-empty requirement. -/
theorem empty_required_strings_accepted :
    addressCreateErrors emptyStringsAddress = [] ∧
    validateAddressCreate emptyStringsAddress =
      some { street := "", city := "", state := "", postal_code := "",
             country := "" } ∧
    validateCustomerCreate emptyNamesPayload =
      some { first_name := "", middle_name := none, last_name := "",
             university_id := none, email := "a@b.edu", phone := none,
             address := [], birth_date := none, status := "active" } :=
  ⟨by decide, by decide, by decide⟩

/-- C8: merging the same patch a second time yields a result whose field
values all equal the first result's, the sole exception being updated_at,
which takes the second merge's time; likewise for Address merges. -/
theorem merge_idempotent_up_to_updated_at
    (e : CustomerRead) (p : CustomerUpdate) (n1 n2 : Nat) (r1 : CustomerRead)
    (h1 : update_customer e p n1 = some r1) :
    update_customer r1 p n2 = some { r1 with updated_at := n2 } ∧
    (∀ (e2 : AddressRead) (p2 : AddressUpdate) (m1 m2 : Nat) (s1 : AddressRead),
      update_address e2 p2 m1 = some s1 →
      update_address s1 p2 m2 = some { s1 with updated_at := m2 }) := by
  constructor
  · obtain ⟨c1, c2, ⟨em, hem, hre, hok⟩, c4, c5, cm, cu, cp, cb, hcu, -, -, -⟩ :=
      update_customer_some h1
    have hemail : ∃ em2, mergedVal r1.email p.email = some em2 ∧
        pyStrip em2 = r1.email := by
      cases hp : p.email with
      | missing => exact ⟨r1.email, rfl, by rw [hre, pyStrip_idem]⟩
      | null =>
          rw [hp] at hem
          exact absurd hem (by simp [mergedVal])
      | val s =>
          rw [hp] at hem
          have hs := mergedVal_val_eq hem
          exact ⟨s, rfl, by rw [hre, hs]⟩
    obtain ⟨em2, hm2, hp2⟩ := hemail
    have hmatch2 : matchEduEmail (pyStrip em2) = true := by
      rw [hp2, hre]; exact hok
    have huni : mergedOpt r1.university_id p.university_id =
        r1.university_id := by
      rw [cu, mergedOpt_self]
    have hunichk : (match mergedOpt r1.university_id p.university_id with
        | some u => matchCourseID u
        | none => true) = true := by
      rw [huni]
      cases hru : r1.university_id with
      | none => rfl
      | some u => exact hcu u hru
    have hmid : mergedOpt r1.middle_name p.middle_name = r1.middle_name := by
      rw [cm, mergedOpt_self]
    have hph : mergedOpt r1.phone p.phone = r1.phone := by
      rw [cp, mergedOpt_self]
    have hbd : mergedOpt r1.birth_date p.birth_date = r1.birth_date := by
      rw [cb, mergedOpt_self]
    unfold update_customer
    rw [mergedVal_self c1, mergedVal_self c2, hm2, mergedVal_self c4,
      mergedVal_self c5]
    dsimp only
    rw [hmatch2, hunichk, hmid, hph, hbd, huni, hp2]
    rfl
  · intro e2 p2 m1 m2 s1 h2
    obtain ⟨a1, a2, a3, a4, a5, -, -, -⟩ := update_address_some h2
    unfold update_address
    rw [mergedVal_self a1, mergedVal_self a2, mergedVal_self a3,
      mergedVal_self a4, mergedVal_self a5]

/-- C8 witness: re-applying the concrete status patch to the first merge
result changes only updated_at. -/
theorem merge_idempotent_witness :
    update_customer mergedExample statusPatch 9 =
      some { mergedExample with updated_at := 9 } :=
  (merge_idempotent_up_to_updated_at exampleCustomer statusPatch 5 9
    mergedExample (by decide)).1

/-- C9: a Read instance never carries a null status: a create without a
status yields "active" and a supplied status is kept verbatim; an explicit
null status is rejected both at create (validation fails) and at merge
(the re-validation produces no result); the fetch handler's record has
status "active". -/
theorem status_never_null :
    (∀ (p : CustomerCreate) (b : CustomerBase),
      validateCustomerCreate p = some b →
      (p.status = .missing → b.status = "active") ∧
      (∀ s, p.status = .val s → b.status = s)) ∧
    (∀ p : CustomerCreate, p.status = .null → validateCustomerCreate p = none) ∧
    (∀ (e : CustomerRead) (q : CustomerUpdate) (now : Nat),
      q.status = .null → update_customer e q now = none) ∧
    (∀ (cid : String) (i c u : Nat),
      (get_customer_by_id cid i c u).status = "active") := by
  refine ⟨?_, ?_, ?_, fun _ _ _ _ => rfl⟩
  · intro p b hb
    unfold validateCustomerCreate at hb
    split at hb
    case isTrue =>
      split at hb
      case _ fn ln em hfn hln hem =>
        rw [Option.some.injEq] at hb
        subst hb
        constructor
        · intro hs; rw [hs]; rfl
        · intro s hs; rw [hs]; rfl
      case _ => exact absurd hb (by simp)
    case isFalse => exact absurd hb (by simp)
  · intro p hs
    unfold validateCustomerCreate
    rw [if_neg]
    intro hnil
    unfold customerCreateErrors at hnil
    rw [hs] at hnil
    simp [noNullErrors, List.append_eq_nil] at hnil
  · intro e q now hq
    unfold update_customer
    split
    case _ fn ln em ad st hfn hln hem had hst =>
      rw [hq] at hst
      exact absurd hst (by simp [mergedVal])
    case _ => rfl

/-- C10: the fetch-by-identifier handler ignores its customer_id path
argument: for any two identifier strings (and any fresh-identifier and
clock inputs) the fabricated records agree on every base field, the
returned identifier and timestamps being the fresh server inputs (one
clock read per timestamp); the handler is total, so no identifier is ever
signalled not-found. -/
theorem get_customer_insensitive_to_id (a b : String)
    (i1 c1 u1 i2 c2 u2 : Nat) :
    (get_customer_by_id a i1 c1 u1).toCustomerBase =
      (get_customer_by_id b i2 c2 u2).toCustomerBase ∧
    (get_customer_by_id a i1 c1 u1).customer_id = i1 ∧
    (get_customer_by_id a i1 c1 u1).created_at = c1 ∧
    (get_customer_by_id a i1 c1 u1).updated_at = u1 :=
  ⟨rfl, rfl, rfl, rfl⟩
